import Mathlib

/-!
Shallow embedding of the drone-delivery demo (src/script.js).

Coordinates and graph statistics are modelled over ℚ (the JS numerics here
are exact decimal literals and +,-,*,/ on small values; the claims under
study are about exact arithmetic relationships, orderings and control flow,
not float rounding).  The haversine distance uses real trigonometric
functions, so it and everything downstream of it lives in ℝ.

The JS literals 0.3 and 0.0001 are written as the exact rationals 3/10 and
1/10000.  `Array.prototype.sort` with comparator `(a,b) => b.score - a.score`
is a stable sort placing `a` before `b` when `b.score ≤ a.score`; it is
modelled by `List.mergeSort` with that relation.
-/

/-- A geographic coordinate as clicked on the map (script.js `points`
elements, Leaflet latlng objects). -/
structure Coord where
  lat : ℚ
  lng : ℚ
deriving DecidableEq, Repr

/-- script.js lines 14-24: haversine great-circle distance with mean Earth
radius R = 6371 km. -/
noncomputable def haversine (a b : Coord) : ℝ :=
  let R : ℝ := 6371
  let dLat : ℝ := ((b.lat : ℝ) - (a.lat : ℝ)) * Real.pi / 180
  let dLon : ℝ := ((b.lng : ℝ) - (a.lng : ℝ)) * Real.pi / 180
  2 * R * Real.arcsin (Real.sqrt (
    Real.sin (dLat / 2) ^ 2 +
    Real.cos ((a.lat : ℝ) * Real.pi / 180) *
    Real.cos ((b.lat : ℝ) * Real.pi / 180) *
    Real.sin (dLon / 2) ^ 2))

/-- script.js lines 107-109: `dist` accumulated over consecutive point
pairs (`for i in [0, length-2]`, `dist += haversine(points[i], points[i+1])`).
For fewer than two points the loop body never runs and the total is 0. -/
noncomputable def totalDist : List Coord → ℝ
  | a :: b :: rest => haversine a b + totalDist (b :: rest)
  | _ => 0

/-- One entry of the fixed algorithm catalog (script.js lines 65-78). -/
structure AlgoDesc where
  name : String
  time : String
  base : ℤ
deriving DecidableEq, Repr

/-- script.js lines 65-78: the fixed 12-entry catalog. -/
def algorithms : List AlgoDesc :=
  [ ⟨"Dijkstra", "O(E log V)", 90⟩,
    ⟨"A*", "O(E log V)", 88⟩,
    ⟨"BFS", "O(V+E)", 82⟩,
    ⟨"DFS", "O(V+E)", 65⟩,
    ⟨"Bellman-Ford", "O(VE)", 70⟩,
    ⟨"Floyd-Warshall", "O(V³)", 60⟩,
    ⟨"Prim", "O(E log V)", 78⟩,
    ⟨"Kruskal", "O(E log E)", 76⟩,
    ⟨"Bidirectional Dijkstra", "O(E log V)", 85⟩,
    ⟨"Johnson", "O(V² log V)", 72⟩,
    ⟨"Ant Colony Optimization", "Iterative", 68⟩,
    ⟨"Naive Greedy", "O(V²)", 55⟩ ]

/-- Result of `analyzeGraph` (script.js line 97: `{ n, spread, density }`). -/
structure GraphStats where
  n : ℕ
  spread : ℚ
  density : ℚ
deriving DecidableEq, Repr

/-- Latitude minimum over the points.  script.js initialises `minLat` to
`Infinity` and folds `Math.min` over all points; for a nonempty list that
equals a fold started from the first point's latitude.  The `[]` case is
junk (the JS value would be `Infinity`); every caller guards nonemptiness. -/
def latMin : List Coord → ℚ
  | [] => 0
  | p :: rest => rest.foldl (fun m q => min m q.lat) p.lat

/-- Latitude maximum over the points (see `latMin`). -/
def latMax : List Coord → ℚ
  | [] => 0
  | p :: rest => rest.foldl (fun m q => max m q.lat) p.lat

/-- Longitude minimum over the points (see `latMin`). -/
def lngMin : List Coord → ℚ
  | [] => 0
  | p :: rest => rest.foldl (fun m q => min m q.lng) p.lng

/-- Longitude maximum over the points (see `latMin`). -/
def lngMax : List Coord → ℚ
  | [] => 0
  | p :: rest => rest.foldl (fun m q => max m q.lng) p.lng

/-- script.js lines 81-98: `analyzeGraph`.  `spread` is latitude range plus
longitude range, `density = n / (spread + 0.0001)`. -/
def analyzeGraph (points : List Coord) : GraphStats :=
  let n := points.length
  let spread := (latMax points - latMin points) + (lngMax points - lngMin points)
  let density := (n : ℚ) / (spread + 1/10000)
  ⟨n, spread, density⟩

/-- A catalog entry together with its adjusted score (script.js line 138:
`{ ...a, score }`). -/
structure ScoredAlgo where
  name : String
  time : String
  base : ℤ
  score : ℤ
deriving DecidableEq, Repr

/-- script.js lines 114-139: score one catalog entry against the graph
statistics.  Each `if` adds its adjustment to the running score; the final
score is clamped once via `Math.max(0, Math.min(100, score))`. -/
def scoreOne (st : GraphStats) (a : AlgoDesc) : ScoredAlgo :=
  let s0 := a.base
  let s1 := if st.n ≤ 3 ∧ (a.name = "BFS" ∨ a.name = "DFS") then s0 + 20 else s0
  let s2 := if 4 ≤ st.n ∧ st.n ≤ 7 ∧ a.name = "Dijkstra" then s1 + 25 else s1
  let s3 := if st.spread > 3/10 ∧ st.density < 10 ∧ a.name = "A*" then s2 + 25 else s2
  let s4 := if 7 < st.n ∧ a.name = "Bidirectional Dijkstra" then s3 + 20 else s3
  let s5 := if st.n < 5 ∧ a.name = "Floyd-Warshall" then s4 - 30 else s4
  ⟨a.name, a.time, a.base, max 0 (min 100 s5)⟩

/-- script.js line 114: `algorithms.map(a => ...)` — the scored list in
catalog order, before sorting. -/
def scoreAll (st : GraphStats) : List ScoredAlgo :=
  algorithms.map (scoreOne st)

/-- The order induced by the comparator `(a,b) => b.score - a.score`
(script.js line 141): `a` may precede `b` iff `b.score ≤ a.score`. -/
def scoreLE (a b : ScoredAlgo) : Bool :=
  b.score ≤ a.score

/-- script.js line 141: `lastScored.sort((a,b) => b.score - a.score)` —
a stable descending sort of the scored list. -/
def ranking (st : GraphStats) : List ScoredAlgo :=
  (scoreAll st).mergeSort scoreLE

/-- Sum of the adjustments of all matching rows of the five-rule table of
the spec, for a descriptor name.  Stated from the rule table to be compared
against `scoreOne`. -/
def specAdjustment (st : GraphStats) (name : String) : ℤ :=
  (if st.n ≤ 3 ∧ (name = "BFS" ∨ name = "DFS") then 20 else 0) +
  (if 4 ≤ st.n ∧ st.n ≤ 7 ∧ name = "Dijkstra" then 25 else 0) +
  (if st.spread > 3/10 ∧ st.density < 10 ∧ name = "A*" then 25 else 0) +
  (if 7 < st.n ∧ name = "Bidirectional Dijkstra" then 20 else 0) +
  (if st.n < 5 ∧ name = "Floyd-Warshall" then -30 else 0)

/-- script.js lines 155-159. -/
def dijkstraText : String :=
  "Dijkstra was selected because the delivery network is moderately sized and weighted. " ++
  "It guarantees the optimal shortest path while maintaining acceptable computational efficiency."

/-- script.js lines 160-164. -/
def aStarText : String :=
  "A* was selected because the delivery points are spatially well-distributed, allowing " ++
  "heuristic guidance to reduce unnecessary exploration and speed up pathfinding."

/-- script.js lines 165-169. -/
def bfsText : String :=
  "BFS was selected due to the very small size of the delivery network, where a simple " ++
  "level-based traversal is sufficient and computationally efficient."

/-- script.js lines 170-174. -/
def bidirectionalText : String :=
  "Bidirectional Dijkstra was selected because the network is large, and searching from " ++
  "both the source and destination significantly reduces the search space."

/-- script.js lines 175-179. -/
def bellmanFordText : String :=
  "Bellman-Ford was selected due to its robustness and ability to handle complex edge conditions, " ++
  "despite higher computational cost."

/-- script.js lines 180-184: the generic fallback sentence. -/
def fallbackText : String :=
  "This algorithm was selected based on its balance between performance, scalability, " ++
  "and suitability for the current network characteristics."

/-- script.js lines 153-184: the explanation chosen by exact match on the
top-ranked descriptor's name, with a generic fallback `else` branch. -/
def explanationFor (name : String) : String :=
  if name = "Dijkstra" then dijkstraText
  else if name = "A*" then aStarText
  else if name = "BFS" then bfsText
  else if name = "Bidirectional Dijkstra" then bidirectionalText
  else if name = "Bellman-Ford" then bellmanFordText
  else fallbackText

/-- The session state of script.js: the point list (line 4), the markers,
polylines and drone marker currently on the map, and `lastScored` (line 5). -/
structure Session where
  points : List Coord
  markers : List Coord
  polylines : List (Coord × Coord)
  drone : Option Coord
  lastScored : List ScoredAlgo
deriving DecidableEq, Repr

/-- The result triple of one route computation: the ranked list, the
explanation string, and the total distance in km. -/
structure Output where
  ranking : List ScoredAlgo
  explanation : String
  distanceKm : ℝ

/-- script.js lines 101-191: `computeRoute`.  With fewer than 2 points it
only alerts and returns — no state change, no output.  Otherwise it draws
the path (polylines over consecutive pairs, lines 27-38), places the drone
at the first point (line 52), sums the distance, scores and sorts, stores
`lastScored`, and renders the explanation of the top-ranked name. -/
noncomputable def computeRoute (s : Session) : Session × Option Output :=
  if s.points.length < 2 then (s, none)
  else
    let dist := totalDist s.points
    let ranked := ranking (analyzeGraph s.points)
    let best := ranked.headD ⟨"", "", 0, 0⟩
    ({ s with
        polylines := s.points.zip s.points.tail,
        drone := s.points.head?,
        lastScored := ranked },
     some ⟨ranked, explanationFor best.name, dist⟩)

/-- script.js lines 211-217: `resetMap` empties the point list and removes
all markers, polylines and the drone marker from the map.  Note that
`lastScored` is not touched. -/
def resetMap (s : Session) : Session :=
  { s with points := [], markers := [], polylines := [], drone := none }

/-- Three points in a small bounding box (spread 1/50, well under 3/10). -/
def pts3 : List Coord := [⟨20, 78⟩, ⟨20 + 1/100, 78⟩, ⟨20, 78 + 1/100⟩]

/-- Five points in a small bounding box. -/
def pts5 : List Coord :=
  [⟨20, 78⟩, ⟨20 + 1/100, 78⟩, ⟨20, 78 + 1/100⟩, ⟨20 + 1/200, 78⟩, ⟨20, 78 + 1/200⟩]

/-! Helper lemmas (shared by several claim proofs and witnesses). -/

/-- Concrete graph statistics of `pts3`. -/
theorem st3_eval : analyzeGraph pts3 = ⟨3, 1/50, 10000/67⟩ := by
  norm_num [analyzeGraph, latMin, latMax, lngMin, lngMax, pts3, min_def, max_def]

/-- Concrete graph statistics of `pts5`. -/
theorem st5_eval : analyzeGraph pts5 = ⟨5, 1/50, 50000/201⟩ := by
  norm_num [analyzeGraph, latMin, latMax, lngMin, lngMax, pts5, min_def, max_def]

/-- The scored list (catalog order) for the three-point scenario. -/
theorem scoreAll_st3 : scoreAll (⟨3, 1/50, 10000/67⟩ : GraphStats) =
    [ ⟨"Dijkstra", "O(E log V)", 90, 90⟩,
      ⟨"A*", "O(E log V)", 88, 88⟩,
      ⟨"BFS", "O(V+E)", 82, 100⟩,
      ⟨"DFS", "O(V+E)", 65, 85⟩,
      ⟨"Bellman-Ford", "O(VE)", 70, 70⟩,
      ⟨"Floyd-Warshall", "O(V³)", 60, 30⟩,
      ⟨"Prim", "O(E log V)", 78, 78⟩,
      ⟨"Kruskal", "O(E log E)", 76, 76⟩,
      ⟨"Bidirectional Dijkstra", "O(E log V)", 85, 85⟩,
      ⟨"Johnson", "O(V² log V)", 72, 72⟩,
      ⟨"Ant Colony Optimization", "Iterative", 68, 68⟩,
      ⟨"Naive Greedy", "O(V²)", 55, 55⟩ ] := by
  norm_num [scoreAll, algorithms, scoreOne]
  decide

/-- The scored list (catalog order) for the five-point scenario. -/
theorem scoreAll_st5 : scoreAll (⟨5, 1/50, 50000/201⟩ : GraphStats) =
    [ ⟨"Dijkstra", "O(E log V)", 90, 100⟩,
      ⟨"A*", "O(E log V)", 88, 88⟩,
      ⟨"BFS", "O(V+E)", 82, 82⟩,
      ⟨"DFS", "O(V+E)", 65, 65⟩,
      ⟨"Bellman-Ford", "O(VE)", 70, 70⟩,
      ⟨"Floyd-Warshall", "O(V³)", 60, 60⟩,
      ⟨"Prim", "O(E log V)", 78, 78⟩,
      ⟨"Kruskal", "O(E log E)", 76, 76⟩,
      ⟨"Bidirectional Dijkstra", "O(E log V)", 85, 85⟩,
      ⟨"Johnson", "O(V² log V)", 72, 72⟩,
      ⟨"Ant Colony Optimization", "Iterative", 68, 68⟩,
      ⟨"Naive Greedy", "O(V²)", 55, 55⟩ ] := by
  norm_num [scoreAll, algorithms, scoreOne]
  decide

/-- The comparator order is transitive. -/
theorem scoreLE_trans (a b c : ScoredAlgo) (h1 : scoreLE a b) (h2 : scoreLE b c) :
    scoreLE a c := by
  simp only [scoreLE, decide_eq_true_eq] at *
  omega

/-- The comparator order is total. -/
theorem scoreLE_total (a b : ScoredAlgo) : scoreLE a b || scoreLE b a := by
  simp only [scoreLE, Bool.or_eq_true, decide_eq_true_eq]
  omega

/-- Sorting permutes the scored list. -/
theorem ranking_is_perm (st : GraphStats) : (ranking st).Perm (scoreAll st) :=
  List.mergeSort_perm (scoreAll st) scoreLE

/-- A ranking always has 12 entries. -/
theorem ranking_len (st : GraphStats) : (ranking st).length = 12 := by
  have h := (ranking_is_perm st).length_eq
  simpa [scoreAll, algorithms] using h

/-- Every adjusted score is clamped into [0, 100]. -/
theorem scoreOne_bounds (st : GraphStats) (a : AlgoDesc) :
    0 ≤ (scoreOne st a).score ∧ (scoreOne st a).score ≤ 100 := by
  refine ⟨le_max_left _ _, max_le (by norm_num) (min_le_left _ _)⟩

/-! Claim theorems. -/

/-- C1: every score equals the base score plus the sum of all matching
adjustments from the five-rule table, clamped once to [0, 100]; with three
points in a small bounding box BFS scores 100 (clamped), DFS 85 and
Floyd-Warshall 30, and with five points Dijkstra scores 100 (clamped) while
Floyd-Warshall stays 60. -/
theorem scoring_matches_rule_table :
    (∀ (st : GraphStats) (a : AlgoDesc),
      (scoreOne st a).score = max 0 (min 100 (a.base + specAdjustment st a.name))) ∧
    (scoreAll (analyzeGraph pts3)).map (fun x => (x.name, x.score)) =
      [("Dijkstra", 90), ("A*", 88), ("BFS", 100), ("DFS", 85), ("Bellman-Ford", 70),
       ("Floyd-Warshall", 30), ("Prim", 78), ("Kruskal", 76), ("Bidirectional Dijkstra", 85),
       ("Johnson", 72), ("Ant Colony Optimization", 68), ("Naive Greedy", 55)] ∧
    (scoreAll (analyzeGraph pts5)).map (fun x => (x.name, x.score)) =
      [("Dijkstra", 100), ("A*", 88), ("BFS", 82), ("DFS", 65), ("Bellman-Ford", 70),
       ("Floyd-Warshall", 60), ("Prim", 78), ("Kruskal", 76), ("Bidirectional Dijkstra", 85),
       ("Johnson", 72), ("Ant Colony Optimization", 68), ("Naive Greedy", 55)] := by
  refine ⟨fun st a => ?_, ?_, ?_⟩
  · simp only [scoreOne, specAdjustment]
    split_ifs <;> omega
  · rw [st3_eval, scoreAll_st3]; rfl
  · rw [st5_eval, scoreAll_st5]; rfl

/-- C2: the ranking is weakly decreasing in score, and any two scored
entries appearing in catalog order with equal scores keep that relative
order in the ranking (the sort is stable). -/
theorem ranking_sorted_and_stable (st : GraphStats) :
    (ranking st).Pairwise (fun a b => b.score ≤ a.score) ∧
    (∀ x y : ScoredAlgo, [x, y].Sublist (scoreAll st) → x.score = y.score →
      [x, y].Sublist (ranking st)) := by
  constructor
  · have h := List.sorted_mergeSort scoreLE_trans scoreLE_total (scoreAll st)
    exact h.imp (fun hab => by simpa [scoreLE] using hab)
  · intro x y hsub heq
    exact List.pair_sublist_mergeSort scoreLE_trans scoreLE_total
      (by simp [scoreLE, heq]) hsub

/-- Witness for C2 at the three-point scenario: DFS and Bidirectional
Dijkstra both score 85 and keep their catalog order in the ranking. -/
theorem ranking_sorted_and_stable_witness :
    [(⟨"DFS", "O(V+E)", 65, 85⟩ : ScoredAlgo),
     ⟨"Bidirectional Dijkstra", "O(E log V)", 85, 85⟩].Sublist
      (ranking (analyzeGraph pts3)) :=
  (ranking_sorted_and_stable (analyzeGraph pts3)).2 _ _
    (by rw [st3_eval, scoreAll_st3]; decide) rfl

/-- C3: for every point set with at least 2 points the ranking has exactly
12 entries, its names are exactly the catalog names with no duplicates and
no omissions, and every score lies in [0, 100]. -/
theorem ranking_complete (ps : List Coord) (h : 2 ≤ ps.length) :
    (ranking (analyzeGraph ps)).length = 12 ∧
    ((ranking (analyzeGraph ps)).map (fun x => x.name)).Perm
      (algorithms.map (fun a => a.name)) ∧
    ((ranking (analyzeGraph ps)).map (fun x => x.name)).Nodup ∧
    (∀ x ∈ ranking (analyzeGraph ps), 0 ≤ x.score ∧ x.score ≤ 100) := by
  have hperm := ranking_is_perm (analyzeGraph ps)
  have hmap : ((ranking (analyzeGraph ps)).map (fun x => x.name)).Perm
      (algorithms.map (fun a => a.name)) := by
    have h1 := hperm.map (fun x => x.name)
    have h2 : (scoreAll (analyzeGraph ps)).map (fun x => x.name) =
        algorithms.map (fun a => a.name) := rfl
    rwa [h2] at h1
  refine ⟨ranking_len _, hmap, hmap.nodup_iff.mpr (by decide), fun x hx => ?_⟩
  have hx' : x ∈ scoreAll (analyzeGraph ps) := hperm.mem_iff.mp hx
  obtain ⟨a, _, rfl⟩ := List.mem_map.mp hx'
  exact scoreOne_bounds _ _

/-- Witness for C3 at the three-point scenario. -/
theorem ranking_complete_witness :
    (ranking (analyzeGraph pts3)).length = 12 ∧
    (0 ≤ (⟨"DFS", "O(V+E)", 65, 85⟩ : ScoredAlgo).score ∧
      (⟨"DFS", "O(V+E)", 65, 85⟩ : ScoredAlgo).score ≤ 100) :=
  ⟨(ranking_complete pts3 (by decide)).1,
   (ranking_complete pts3 (by decide)).2.2.2 _
     (List.mem_mergeSort.mpr (by rw [st3_eval, scoreAll_st3]; decide))⟩

/-- C4: with fewer than 2 points, `computeRoute` refuses to proceed — the
session (including `lastScored`) is unchanged and no output (statistics,
ranking or distance) is produced. -/
theorem insufficient_points_guard (s : Session) (h : s.points.length < 2) :
    computeRoute s = (s, none) := by
  unfold computeRoute
  rw [if_pos h]

/-- Witness for C4: one point, a nonempty previous ranking — nothing
changes and no output is produced. -/
theorem insufficient_points_guard_witness :
    computeRoute ⟨[⟨20, 78⟩], [], [], none, [⟨"BFS", "O(V+E)", 82, 100⟩]⟩ =
      (⟨[⟨20, 78⟩], [], [], none, [⟨"BFS", "O(V+E)", 82, 100⟩]⟩, none) :=
  insufficient_points_guard _ (by decide)

/-- C5 counterexample: `resetMap` does not clear `lastScored` — on a
session whose last ranking is nonempty, the reset session still carries
it, refuting that reset fully clears all session state. -/
theorem reset_keeps_lastScored_cex :
    (resetMap ⟨[], [], [], none, [⟨"BFS", "O(V+E)", 82, 100⟩]⟩).lastScored ≠ [] := by
  decide

/-- C5 amended: reset clears the point set and all map layers (markers,
polylines, drone marker), but leaves the most recent ranked list
`lastScored` unchanged. -/
theorem reset_behavior (s : Session) :
    (resetMap s).points = [] ∧ (resetMap s).markers = [] ∧
    (resetMap s).polylines = [] ∧ (resetMap s).drone = none ∧
    (resetMap s).lastScored = s.lastScored :=
  ⟨rfl, rfl, rfl, rfl, rfl⟩

/-- C6: the explanation selector returns the bespoke prose for exactly the
five names Dijkstra, A*, BFS, Bidirectional Dijkstra and Bellman-Ford, and
the single generic fallback sentence for every other string; it is total. -/
theorem explanation_selector_total :
    explanationFor "Dijkstra" = dijkstraText ∧
    explanationFor "A*" = aStarText ∧
    explanationFor "BFS" = bfsText ∧
    explanationFor "Bidirectional Dijkstra" = bidirectionalText ∧
    explanationFor "Bellman-Ford" = bellmanFordText ∧
    (∀ nm : String, nm ≠ "Dijkstra" → nm ≠ "A*" → nm ≠ "BFS" →
      nm ≠ "Bidirectional Dijkstra" → nm ≠ "Bellman-Ford" →
      explanationFor nm = fallbackText) := by
  refine ⟨rfl, by simp [explanationFor], by simp [explanationFor],
    by simp [explanationFor], by simp [explanationFor], fun nm h1 h2 h3 h4 h5 => ?_⟩
  simp [explanationFor, h1, h2, h3, h4, h5]

/-- Witness for C6: the name Prim falls through to the generic fallback. -/
theorem explanation_selector_total_witness :
    explanationFor "Prim" = fallbackText :=
  explanation_selector_total.2.2.2.2.2 "Prim"
    (by decide) (by decide) (by decide) (by decide) (by decide)

/-- C7: the loop total equals the sum of haversine distances over
consecutive point pairs; with fewer than two points the total is 0; the
haversine distance between identical coordinates is 0. -/
theorem distance_contract :
    (∀ ps : List Coord,
      totalDist ps = ((ps.zip ps.tail).map (fun q => haversine q.1 q.2)).sum) ∧
    (∀ ps : List Coord, ps.length < 2 → totalDist ps = 0) ∧
    (∀ a : Coord, haversine a a = 0) := by
  refine ⟨fun ps => ?_, fun ps h => ?_, fun a => ?_⟩
  · induction ps with
    | nil => simp [totalDist]
    | cons a rest ih =>
      cases rest with
      | nil => simp [totalDist]
      | cons b r2 => simp [totalDist, ih]
  · match ps, h with
    | [], _ => rfl
    | [a], _ => rfl
  · simp [haversine]

/-- Witness for C7: a single point yields total distance 0. -/
theorem distance_contract_witness : totalDist [⟨20, 78⟩] = 0 :=
  distance_contract.2.1 [⟨20, 78⟩] (by decide)

/-- C10: the haversine distance is symmetric in its two arguments. -/
theorem haversine_symm (a b : Coord) : haversine a b = haversine b a := by
  simp only [haversine]
  congr 1
  congr 1
  congr 1
  rw [show ((a.lat : ℝ) - (b.lat : ℝ)) * Real.pi / 180 / 2 =
        -(((b.lat : ℝ) - (a.lat : ℝ)) * Real.pi / 180 / 2) from by ring,
      show ((a.lng : ℝ) - (b.lng : ℝ)) * Real.pi / 180 / 2 =
        -(((b.lng : ℝ) - (a.lng : ℝ)) * Real.pi / 180 / 2) from by ring,
      Real.sin_neg, Real.sin_neg]
  ring

/-- Folding a step that fixes the accumulator over a replicated list keeps
the accumulator. -/
theorem foldl_replicate_fix {f : ℚ → Coord → ℚ} {a : ℚ} {p : Coord}
    (hf : f a p = a) : ∀ k : ℕ, (List.replicate k p).foldl f a = a := by
  intro k
  induction k with
  | zero => rfl
  | succ m ih => simpa [List.replicate_succ, hf] using ih

/-- A min-fold only decreases the accumulator. -/
theorem foldl_min_le (g : Coord → ℚ) :
    ∀ (l : List Coord) (a : ℚ), l.foldl (fun m q => min m (g q)) a ≤ a := by
  intro l
  induction l with
  | nil => intro a; simp
  | cons p t ih =>
    intro a
    exact le_trans (ih (min a (g p))) (min_le_left _ _)

/-- A max-fold only increases the accumulator. -/
theorem le_foldl_max (g : Coord → ℚ) :
    ∀ (l : List Coord) (a : ℚ), a ≤ l.foldl (fun m q => max m (g q)) a := by
  intro l
  induction l with
  | nil => intro a; simp
  | cons p t ih =>
    intro a
    exact le_trans (le_max_left _ _) (ih (max a (g p)))

/-- C8: for every nonempty point set the spread is nonnegative, so the
epsilon-guarded denominator `spread + 0.0001` is nonzero; with all points
identical the statistics come out as `spread = 0` and
`density = count / 0.0001 = count * 10000`, and scoring still completes
with a full 12-entry ranking. -/
theorem degenerate_geometry_safe :
    (∀ ps : List Coord, ps ≠ [] →
      0 ≤ (analyzeGraph ps).spread ∧ (analyzeGraph ps).spread + 1/10000 ≠ 0) ∧
    (∀ (p : Coord) (k : ℕ),
      (analyzeGraph (List.replicate (k+1) p)).spread = 0 ∧
      (analyzeGraph (List.replicate (k+1) p)).density = ((k : ℚ) + 1) * 10000) ∧
    (∀ (p : Coord) (k : ℕ),
      (ranking (analyzeGraph (List.replicate (k+1) p))).length = 12) := by
  refine ⟨fun ps hps => ?_, fun p k => ?_, fun p k => ranking_len _⟩
  · match ps, hps with
    | p :: rest, _ =>
      have h1 : latMin (p :: rest) ≤ p.lat := foldl_min_le (fun q => q.lat) rest p.lat
      have h2 : p.lat ≤ latMax (p :: rest) := le_foldl_max (fun q => q.lat) rest p.lat
      have h3 : lngMin (p :: rest) ≤ p.lng := foldl_min_le (fun q => q.lng) rest p.lng
      have h4 : p.lng ≤ lngMax (p :: rest) := le_foldl_max (fun q => q.lng) rest p.lng
      have hsp : 0 ≤ (analyzeGraph (p :: rest)).spread := by
        show 0 ≤ (latMax (p :: rest) - latMin (p :: rest)) +
          (lngMax (p :: rest) - lngMin (p :: rest))
        linarith
      exact ⟨hsp, by positivity⟩
  · have e1 : latMin (List.replicate (k+1) p) = p.lat := by
      rw [List.replicate_succ]
      exact foldl_replicate_fix (min_self _) k
    have e2 : latMax (List.replicate (k+1) p) = p.lat := by
      rw [List.replicate_succ]
      exact foldl_replicate_fix (max_self _) k
    have e3 : lngMin (List.replicate (k+1) p) = p.lng := by
      rw [List.replicate_succ]
      exact foldl_replicate_fix (min_self _) k
    have e4 : lngMax (List.replicate (k+1) p) = p.lng := by
      rw [List.replicate_succ]
      exact foldl_replicate_fix (max_self _) k
    constructor
    · show (latMax _ - latMin _) + (lngMax _ - lngMin _) = 0
      rw [e1, e2, e3, e4]; ring
    · show ((List.replicate (k+1) p).length : ℚ) /
        (((latMax _ - latMin _) + (lngMax _ - lngMin _)) + 1/10000) = ((k : ℚ) + 1) * 10000
      rw [e1, e2, e3, e4, List.length_replicate]
      push_cast
      norm_num
      rw [one_div, div_eq_mul_inv, inv_inv]

/-- Witness for C8 at a one-point set. -/
theorem degenerate_geometry_safe_witness :
    0 ≤ (analyzeGraph [⟨20, 78⟩]).spread ∧
    (analyzeGraph [⟨20, 78⟩]).spread + 1/10000 ≠ 0 :=
  degenerate_geometry_safe.1 [⟨20, 78⟩] (List.cons_ne_nil _ _)

/-- C9: the route computation is deterministic and depends only on the
point list — two sessions with the same points (at least 2 of them) get
the same output (ranking, explanation, distance) and the same stored
`lastScored`. -/
theorem route_deterministic (s t : Session) (hp : s.points = t.points)
    (h2 : 2 ≤ s.points.length) :
    (computeRoute s).2 = (computeRoute t).2 ∧
    (computeRoute s).1.lastScored = (computeRoute t).1.lastScored := by
  have hs : ¬ s.points.length < 2 := by omega
  have ht : ¬ t.points.length < 2 := by rw [← hp]; exact hs
  constructor <;> simp [computeRoute, hs, ht, hp]

/-- Witness for C9: two sessions sharing `pts3` but differing in markers
and previous ranking produce identical outputs. -/
theorem route_deterministic_witness :
    (computeRoute ⟨pts3, [], [], none, []⟩).2 =
      (computeRoute ⟨pts3, [⟨20, 78⟩], [], none, [⟨"BFS", "O(V+E)", 82, 100⟩]⟩).2 ∧
    (computeRoute ⟨pts3, [], [], none, []⟩).1.lastScored =
      (computeRoute ⟨pts3, [⟨20, 78⟩], [], none, [⟨"BFS", "O(V+E)", 82, 100⟩]⟩).1.lastScored :=
  route_deterministic _ _ rfl (by decide)
